import Mathlib

/-!
# Verification of the multi-agent demo orchestration core

Shallow embedding of the routing / orchestration logic of the
`multi-agent-demo` repository, together with proofs of the testable
properties stated in its design specification.

Embedded source units:
* `src/agents/databricks_agent.py` — `_mock_score_opportunity` (scoring rule,
  next-best-product selection);
* `src/agents/coordinator.py` — keyword routing of the coordinator agent;
* `src/api.py` — `process_with_agents` (the manual dispatcher);
* `src/agents/deal_orchestrator_agent.py` — retry loops of
  `fetch_opportunities` / `score_opportunities` / `write_summary`,
  the per-record `update_salesforce` stage, and `run_workflow`.

Python floats are modelled as exact rationals (`ℚ`); every constant that
occurs in the source (0.5, 0.3, 0.1, 0.9, 1.5, 0.8, 0.7, 0.4, …) is an
exact decimal, so no claim hinges on binary floating point rounding.
HTTP interactions are modelled by an environment that maps each call site
and attempt number to an abstract outcome (a 200 response with parsed
body, a non-200 status code, or a transport-level exception).
-/

/- ### Scoring rule (`DatabricksAgent._mock_score_opportunity`) -/

/-- An opportunity record as consumed by the mock scorer
(`src/agents/databricks_agent.py`, lines 240-244): the scorer reads
`amount` and `industry`; the remaining fields are carried through. -/
structure Opportunity where
  id : String
  amount : ℚ
  industry : String
  existing_customer : Bool
  days_in_current_stage : Nat
  deriving Repr, DecidableEq

/-- A scored opportunity as consumed by the Salesforce update stage
(`deal_orchestrator_agent.py` reads `id`, `winProbability`,
`nextBestProduct`, `amount`). -/
structure ScoredOpp where
  id : String
  amount : ℚ
  winProbability : ℚ
  nextBestProduct : String
  deriving Repr, DecidableEq

/-- `amount_factor = max(0, min(0.3, 1 - (amount / 1000000)))`
(`databricks_agent.py` line 250). -/
def amount_factor (amount : ℚ) : ℚ :=
  max 0 (min 0.3 (1 - amount / 1000000))

/-- The fixed per-industry bonus table (`databricks_agent.py` lines 253-258);
`.get(industry, 0)` yields 0 for any industry not in the table. -/
def industry_bonus (industry : String) : ℚ :=
  if industry = "Technology" then 0.2
  else if industry = "Healthcare" then 0.15
  else if industry = "Finance" then 0.1
  else if industry = "Retail" then 0.05
  else 0

/-- Rounding to two decimals, modelling Python's `round(win_prob, 2)`
(`databricks_agent.py` line 294).  We round half up; Python rounds half to
even, but the two agree except on exact half-cent values and no property
proved here depends on the tie-breaking rule. -/
def round2 (x : ℚ) : ℚ :=
  ((⌊100 * x + 1 / 2⌋ : ℤ) : ℚ) / 100

/-- The three-product list per industry (`databricks_agent.py` lines 265-272);
string comparison is exact (`==`), any other industry gets the default list. -/
def products_for (industry : String) : List String :=
  if industry = "Technology" then ["Cloud Security", "API Manager", "Data Warehouse"]
  else if industry = "Healthcare" then ["Patient Portal", "Analytics Platform", "Compliance Suite"]
  else if industry = "Finance" then ["Trading Platform", "Risk Assessment", "Fraud Detection"]
  else ["CRM Enterprise", "Analytics Suite", "Support Package"]

/-- Product tier selection (`databricks_agent.py` lines 275-280):
`products[0]` when `win_prob > 0.7`, `products[1]` when `win_prob > 0.4`,
else `products[2]`. -/
def next_best_product (industry : String) (win_prob : ℚ) : String :=
  let products := products_for industry
  if win_prob > 0.7 then products.getD 0 ""
  else if win_prob > 0.4 then products.getD 1 ""
  else products.getD 2 ""

/-- The probability band the product tier depends on: 0 for `> 0.7`,
1 for `> 0.4`, 2 otherwise (mirrors the `if`-chain of lines 275-280). -/
def prob_band (win_prob : ℚ) : Nat :=
  if win_prob > 0.7 then 0
  else if win_prob > 0.4 then 1
  else 2

/-- `_mock_score_opportunity` (`databricks_agent.py` lines 230-296).
The `random.uniform(-0.1, 0.1)` draw is passed in as the parameter `r`.
The product is selected from the clamped, un-rounded probability; the
stored `winProbability` is the clamped probability rounded to 2 decimals. -/
def mock_score_opportunity (opp : Opportunity) (r : ℚ) : ScoredOpp :=
  let win_prob := max 0.1 (min 0.9 (0.5 + amount_factor opp.amount + industry_bonus opp.industry + r))
  { id := opp.id
    amount := opp.amount
    winProbability := round2 win_prob
    nextBestProduct := next_best_product opp.industry win_prob }

/- ### Coordinator routing (`src/agents/coordinator.py`) and the manual
dispatcher (`src/api.py`, `process_with_agents`) -/

/-- Is `pat` a prefix of `l`? (character-exact, like Python `str.startswith`). -/
def chars_prefix : List Char → List Char → Bool
  | [], _ => true
  | _ :: _, [] => false
  | a :: pa, b :: lb => a == b && chars_prefix pa lb

/-- Does `pat` occur contiguously inside `l`? (Python's `pat in s`). -/
def chars_infix (pat : List Char) : List Char → Bool
  | [] => chars_prefix pat []
  | b :: lb => chars_prefix pat (b :: lb) || chars_infix pat lb

/-- Python's substring test `pat in s`. -/
def str_contains (s pat : String) : Bool :=
  chars_infix pat.toList s.toList

/-- Python's `str.lower()`, modelled as a per-character map over the
string's characters (equivalent to the library lowering on the ASCII
capability names the routing compares against). -/
def str_lower (s : String) : String :=
  ⟨s.data.map Char.toLower⟩

/-- The coordinator's routing of a completion text
(`coordinator.py` lines 58-68): first matching capability name wins,
with `route_optimizer` as the default when none occurs. -/
def coordinator_route (content : String) : String :=
  let c := str_lower content
  if str_contains c "route_optimizer" then "route_optimizer"
  else if str_contains c "fleet_monitor" then "fleet_monitor"
  else if str_contains c "data_retriever" then "data_retriever"
  else if str_contains c "notification" then "notification"
  else "route_optimizer"

/-- The state dict threaded through the agents: `input`, `context`
(modelled as an insertion-ordered string map), `next`. -/
structure AgentState where
  input : String
  context : List (String × String)
  next : String
  deriving Repr, DecidableEq

/-- Python dict assignment `ctx[k] = v`: overwrite in place if the key
exists, else append. -/
def ctx_set (ctx : List (String × String)) (k v : String) : List (String × String) :=
  if ctx.any (fun p => p.1 = k) then
    ctx.map (fun p => if p.1 = k then (k, v) else p)
  else ctx ++ [(k, v)]

/-- `coordinator_agent` (`coordinator.py` lines 8-75) with the LLM
completion text passed in as `completion`: stores the routing reason and
chosen agent in the context and sets `next`. -/
def coordinator_agent (completion : String) (state : AgentState) : AgentState :=
  let next_agent := coordinator_route completion
  { input := state.input
    context := ctx_set (ctx_set state.context "routing_reason" completion) "next_agent" next_agent
    next := next_agent }

/-- A handler as invoked by the dispatcher: it either returns an updated
state or raises (`Except.error` models a Python exception). -/
def Handler : Type := AgentState → Except String AgentState

/-- The five handler functions `process_with_agents` can invoke
(`api.py` lines 73-116).  They are parameters of the dispatcher model:
each wraps an LLM call, so its behavior is environment-dependent. -/
structure Handlers where
  coordinator_agent : Handler
  route_optimizer_agent : Handler
  fleet_monitor_agent : Handler
  data_retriever_agent : Handler
  notification_agent : Handler

/-- The dispatcher's result: `{"error": msg, ...}` on a caught handler
exception, else `{"result": state, ...}`. -/
inductive DispatchOutcome where
  | errorResult (msg : String)
  | finalResult (state : AgentState)
  deriving Repr, DecidableEq

/-- Is the dispatch outcome the error shape? -/
def DispatchOutcome.isError : DispatchOutcome → Bool
  | .errorResult _ => true
  | .finalResult _ => false

/-- The `next` field of a final (non-error) dispatch outcome. -/
def DispatchOutcome.finalNext : DispatchOutcome → Option String
  | .errorResult _ => none
  | .finalResult s => some s.next

/-- `process_with_agents` (`api.py` lines 62-119), returning the list of
handler names invoked (in order) together with the outcome.
Step 1: the coordinator; step 2: the specialist named by the
coordinator's `next` (default `route_optimizer`); step 3: the data
retriever if the current state's `next` is `"data_retriever"`;
step 4: the notification agent if the current state's `next` is
`"notification"`.  Any handler exception aborts with the error shape. -/
def process_with_agents (h : Handlers) (user_input : String)
    (context : List (String × String)) : List String × DispatchOutcome :=
  let state0 : AgentState := { input := user_input, context := context, next := "" }
  match h.coordinator_agent state0 with
  | .error e => (["coordinator_agent"], .errorResult e)
  | .ok s1 =>
    let next_agent := s1.next
    let (name2, step2) :=
      if next_agent = "route_optimizer" then ("route_optimizer_agent", h.route_optimizer_agent s1)
      else if next_agent = "fleet_monitor" then ("fleet_monitor_agent", h.fleet_monitor_agent s1)
      else if next_agent = "data_retriever" then ("data_retriever_agent", h.data_retriever_agent s1)
      else if next_agent = "notification" then ("notification_agent", h.notification_agent s1)
      else ("route_optimizer_agent", h.route_optimizer_agent s1)
    match step2 with
    | .error e => (["coordinator_agent", name2], .errorResult e)
    | .ok s2 =>
      match (if s2.next = "data_retriever" then some (h.data_retriever_agent s2) else none) with
      | some (.error e) => (["coordinator_agent", name2, "data_retriever_agent"], .errorResult e)
      | some (.ok s3) =>
        match (if s3.next = "notification" then some (h.notification_agent s3) else none) with
        | some (.error e) =>
          (["coordinator_agent", name2, "data_retriever_agent", "notification_agent"], .errorResult e)
        | some (.ok s4) =>
          (["coordinator_agent", name2, "data_retriever_agent", "notification_agent"], .finalResult s4)
        | none => (["coordinator_agent", name2, "data_retriever_agent"], .finalResult s3)
      | none =>
        match (if s2.next = "notification" then some (h.notification_agent s2) else none) with
        | some (.error e) => (["coordinator_agent", name2, "notification_agent"], .errorResult e)
        | some (.ok s3) => (["coordinator_agent", name2, "notification_agent"], .finalResult s3)
        | none => (["coordinator_agent", name2], .finalResult s2)

/- ### Retry engine of the pipeline orchestrator
(`src/agents/deal_orchestrator_agent.py`) -/

/-- Retry configuration (`deal_orchestrator_agent.py` lines 18-21). -/
structure RetryConfig where
  max_retries : Nat
  backoff_factor : ℚ
  deriving Repr, DecidableEq

/-- The configuration the orchestrator is constructed with:
`max_retries = 2`, `backoff_factor = 1.5`. -/
def default_retry_config : RetryConfig :=
  { max_retries := 2, backoff_factor := 1.5 }

/-- Outcome of one HTTP call: `.ok v` is a 200 response whose JSON body
parsed to `v`; `.status c` is a response with (non-200) status `c`;
`.exn m` is a transport-level exception with message `m`. -/
inductive CallOutcome (α : Type) where
  | ok (v : α)
  | status (code : Nat)
  | exn (msg : String)
  deriving Repr, DecidableEq

/-- Is the outcome retriable in the sense of the spec's retry policy:
an HTTP-like 5xx or a transport exception? -/
def retriable_outcome : CallOutcome α → Bool
  | .ok _ => false
  | .status c => decide (500 ≤ c) && decide (c < 600)
  | .exn _ => true

/-- Did the call succeed (200)? -/
def outcome_ok : CallOutcome α → Bool
  | .ok _ => true
  | _ => false

/-- Is the outcome a 4xx status? -/
def outcome_4xx : CallOutcome α → Bool
  | .status c => decide (400 ≤ c) && decide (c < 500)
  | _ => false

/-- One entry of the run's externally visible trace: an external call to
one of the five collaborator endpoints, or a backoff sleep of the given
duration in seconds. -/
inductive CallEvent where
  | fetchCall
  | scoreCall
  | updateCall (id : String)
  | taskCall (id : String)
  | insertCall
  | sleep (secs : ℚ)
  deriving Repr, DecidableEq

/-- Is the event a backoff sleep? -/
def CallEvent.isSleep : CallEvent → Bool
  | .sleep _ => true
  | _ => false

/-- The non-sleep events of a trace (i.e. the external calls made). -/
def calls_of (log : List CallEvent) : List CallEvent :=
  log.filter (fun e => !e.isSleep)

/-- The sleep durations of a trace, in order. -/
def sleeps_of (log : List CallEvent) : List ℚ :=
  log.filterMap (fun e => match e with | .sleep q => some q | _ => none)

/-- Is the event an `UpdateRecord` call? -/
def is_update_call : CallEvent → Bool
  | .updateCall _ => true
  | _ => false

/-- Is the event a `CreateFollowUp` (task) call? -/
def is_task_call : CallEvent → Bool
  | .taskCall _ => true
  | _ => false

/-- Is the event a `WriteSummary` (insert) call? -/
def is_insert_call : CallEvent → Bool
  | .insertCall => true
  | _ => false

/-- Body of the shared `for attempt in range(max_retries + 1)` retry loop
of `fetch_opportunities` (lines 30-52), `score_opportunities`
(lines 67-89) and `write_summary` (lines 186-206).

`call attempt` is the outcome of the HTTP POST of the given attempt.
A 200 returns the parsed body.  A 5xx with retries remaining sleeps
`B * 2 ^ attempt` and retries.  Otherwise the loop body raises inside its
`try` block: with message `statusMsg c` when the status handler raises
(`response.raise_for_status()` for fetch/write — it raises only for
`c ≥ 400`, captured by `raisesOn` — and the unconditional
`raise Exception(...)` for score), or the transport exception's own
message; the `except` clause sleeps and retries while attempts remain and
otherwise re-raises with `wrapFinal` applied (the identity for
fetch/write, which use a bare `raise`; the `"Critical error in
Databricks: "` wrapper for score).  A non-200 status for which nothing
raises (2xx/3xx under `raise_for_status`) falls through to the next loop
iteration without sleeping; falling off the loop raises `trailing`.

`fuel` is the number of loop iterations remaining, `attempt` the current
0-indexed attempt; the loop starts with `attempt = 0`, `fuel = R + 1`. -/
def retryGo (R : Nat) (B : ℚ) (call : Nat → CallOutcome α) (raisesOn : Nat → Bool)
    (statusMsg : Nat → String) (wrapFinal : String → String) (trailing : String)
    (ev : CallEvent) : Nat → Nat → List CallEvent × Except String α
  | _, 0 => ([], .error trailing)
  | attempt, fuel + 1 =>
    match call attempt with
    | .ok v => ([ev], .ok v)
    | .status c =>
      if 500 ≤ c ∧ c < 600 ∧ attempt < R then
        let rest := retryGo R B call raisesOn statusMsg wrapFinal trailing ev (attempt + 1) fuel
        (ev :: .sleep (B * 2 ^ attempt) :: rest.1, rest.2)
      else if raisesOn c then
        if attempt < R then
          let rest := retryGo R B call raisesOn statusMsg wrapFinal trailing ev (attempt + 1) fuel
          (ev :: .sleep (B * 2 ^ attempt) :: rest.1, rest.2)
        else ([ev], .error (wrapFinal (statusMsg c)))
      else
        let rest := retryGo R B call raisesOn statusMsg wrapFinal trailing ev (attempt + 1) fuel
        (ev :: rest.1, rest.2)
    | .exn m =>
      if attempt < R then
        let rest := retryGo R B call raisesOn statusMsg wrapFinal trailing ev (attempt + 1) fuel
        (ev :: .sleep (B * 2 ^ attempt) :: rest.1, rest.2)
      else ([ev], .error (wrapFinal m))

/-- The full retry loop, started at attempt 0 with `R + 1` iterations. -/
def retryCall (R : Nat) (B : ℚ) (call : Nat → CallOutcome α) (raisesOn : Nat → Bool)
    (statusMsg : Nat → String) (wrapFinal : String → String) (trailing : String)
    (ev : CallEvent) : List CallEvent × Except String α :=
  retryGo R B call raisesOn statusMsg wrapFinal trailing ev 0 (R + 1)

/-- The message of the exception `aiohttp`'s `raise_for_status()` raises
for a `c ≥ 400` response.  The exact text is produced by the HTTP
library, not by this repository; only its existence matters to the
claims, so it is modelled as a function of the status code. -/
def raise_for_status_msg (c : Nat) : String :=
  "HTTP error " ++ toString c

/-- The environment of one pipeline run: the outcome of each external
call, indexed by call site and 0-based attempt number (and record id for
the per-record Salesforce calls).  Response bodies of the Salesforce and
Snowflake-insert calls are opaque JSON values, modelled as strings, as is
each raw opportunity row returned by the fetch. -/
structure Env where
  fetchResp : Nat → CallOutcome (List String)
  scoreResp : Nat → CallOutcome (List ScoredOpp)
  updateResp : String → Nat → CallOutcome String
  taskResp : String → CallOutcome String
  insertResp : Nat → CallOutcome String

/-- `fetch_opportunities` (`deal_orchestrator_agent.py` lines 23-54). -/
def fetch_opportunities (cfg : RetryConfig) (env : Env) :
    List CallEvent × Except String (List String) :=
  retryCall cfg.max_retries cfg.backoff_factor env.fetchResp
    (fun c => decide (400 ≤ c)) raise_for_status_msg (fun m => m)
    "Failed to fetch opportunities from Snowflake" .fetchCall

/-- `score_opportunities` (`deal_orchestrator_agent.py` lines 56-91):
an empty input returns `[]` without any call; any non-200 response makes
the loop body raise, and the final re-raise wraps the message. -/
def score_opportunities (cfg : RetryConfig) (env : Env) (opportunities : List String) :
    List CallEvent × Except String (List ScoredOpp) :=
  if opportunities.isEmpty then ([], .ok [])
  else
    retryCall cfg.max_retries cfg.backoff_factor env.scoreResp
      (fun _ => true)
      (fun c => "Critical error: Databricks scoring failed with status " ++ toString c)
      (fun m => "Critical error in Databricks: " ++ m)
      "Failed to score opportunities in Databricks" .scoreCall

/-- `write_summary` (`deal_orchestrator_agent.py` lines 172-208). -/
def write_summary (cfg : RetryConfig) (env : Env) :
    List CallEvent × Except String String :=
  retryCall cfg.max_retries cfg.backoff_factor env.insertResp
    (fun c => decide (400 ≤ c)) raise_for_status_msg (fun m => m)
    "Failed to write summary to Snowflake" .insertCall

/- ### The per-record Salesforce stage (`update_salesforce`, lines 93-170) -/

/-- Accumulator of the `update_salesforce` loop: the five accumulated
values of lines 99-103 plus the event trace. -/
structure SfAcc where
  high_priority_count : Nat
  total_pipeline_value : ℚ
  error_records : List String
  updated_records : List String
  created_tasks : List String
  log : List CallEvent
  deriving Repr, DecidableEq

/-- Outcome of the inline 5xx retry loop (lines 144-155). -/
inductive SfRetryOut where
  | success (body : String)
  | exhausted
  | raised
  deriving Repr, DecidableEq

/-- The inline retry loop `for retry in range(max_retries)` of the
Salesforce update (lines 145-155): each iteration sleeps
`B * 2 ^ retry`, re-issues the PATCH (attempt number `retry + 1`), stops
on a 200, continues on any other status, and propagates a transport
exception to the per-record `except` handler.  `fuel` is the number of
iterations remaining (initially `max_retries`). -/
def sf_retry (B : ℚ) (env : Env) (oppId : String) :
    Nat → Nat → List CallEvent × SfRetryOut
  | _, 0 => ([], .exhausted)
  | retry, fuel + 1 =>
    let evs : List CallEvent := [CallEvent.sleep (B * 2 ^ retry), CallEvent.updateCall oppId]
    match env.updateResp oppId (retry + 1) with
    | .ok body => (evs, .success body)
    | .status _ =>
      let rest := sf_retry B env oppId (retry + 1) fuel
      (evs ++ rest.1, rest.2)
    | .exn _ => (evs, .raised)

/-- The loop body of `update_salesforce` for one scored opportunity
(lines 105-162).  First-attempt 200: append the response body to
`updated_records`, attempt the follow-up task (a non-200 task response is
only logged; a task transport exception is caught by the per-record
`except`, which appends the id to `error_records` — note the record then
sits in both lists), then, still inside the 200 branch, count the deal
as high priority when `winProbability > 0.8`.  First-attempt 4xx: the id
goes to `error_records`.  First-attempt 5xx: the inline retry loop runs;
on success the body is appended to `updated_records` (with no follow-up
task and no high-priority accounting), on exhaustion or exception the id
goes to `error_records`.  Any other first-attempt status matches no
branch: the record is skipped silently.  A first-attempt transport
exception sends the id to `error_records`. -/
def process_opp (cfg : RetryConfig) (env : Env) (acc : SfAcc) (opp : ScoredOpp) : SfAcc :=
  match env.updateResp opp.id 0 with
  | .ok body =>
    let acc1 := { acc with
      log := acc.log ++ [CallEvent.updateCall opp.id]
      updated_records := acc.updated_records ++ [body] }
    match env.taskResp opp.id with
    | .ok task_body =>
      let acc2 := { acc1 with
        log := acc1.log ++ [CallEvent.taskCall opp.id]
        created_tasks := acc1.created_tasks ++ [task_body] }
      if opp.winProbability > 0.8 then
        { acc2 with
          high_priority_count := acc2.high_priority_count + 1
          total_pipeline_value := acc2.total_pipeline_value + opp.amount }
      else acc2
    | .status _ =>
      let acc2 := { acc1 with log := acc1.log ++ [CallEvent.taskCall opp.id] }
      if opp.winProbability > 0.8 then
        { acc2 with
          high_priority_count := acc2.high_priority_count + 1
          total_pipeline_value := acc2.total_pipeline_value + opp.amount }
      else acc2
    | .exn _ =>
      { acc1 with
        log := acc1.log ++ [CallEvent.taskCall opp.id]
        error_records := acc1.error_records ++ [opp.id] }
  | .status c =>
    if 400 ≤ c ∧ c < 500 then
      { acc with
        log := acc.log ++ [CallEvent.updateCall opp.id]
        error_records := acc.error_records ++ [opp.id] }
    else if 500 ≤ c ∧ c < 600 then
      match sf_retry cfg.backoff_factor env opp.id 0 cfg.max_retries with
      | (l, .success body) =>
        { acc with
          log := acc.log ++ [CallEvent.updateCall opp.id] ++ l
          updated_records := acc.updated_records ++ [body] }
      | (l, .exhausted) =>
        { acc with
          log := acc.log ++ [CallEvent.updateCall opp.id] ++ l
          error_records := acc.error_records ++ [opp.id] }
      | (l, .raised) =>
        { acc with
          log := acc.log ++ [CallEvent.updateCall opp.id] ++ l
          error_records := acc.error_records ++ [opp.id] }
    else { acc with log := acc.log ++ [CallEvent.updateCall opp.id] }
  | .exn _ =>
    { acc with
      log := acc.log ++ [CallEvent.updateCall opp.id]
      error_records := acc.error_records ++ [opp.id] }

/-- Return value of `update_salesforce`: the bare `[]` the function
returns for an empty input (line 95-96) — a list, not the result dict —
or the result dict of lines 164-170. -/
inductive SfReturn where
  | emptyList
  | results (acc : SfAcc)
  deriving Repr, DecidableEq

/-- `update_salesforce` (`deal_orchestrator_agent.py` lines 93-170):
fold the per-record body over the scored opportunities in order. -/
def update_salesforce (cfg : RetryConfig) (env : Env) (scored : List ScoredOpp) :
    List CallEvent × SfReturn :=
  if scored.isEmpty then ([], .emptyList)
  else
    let acc := scored.foldl (process_opp cfg env)
      { high_priority_count := 0, total_pipeline_value := 0, error_records := []
        updated_records := [], created_tasks := [], log := [] }
    (acc.log, .results acc)

/- ### `run_workflow` (`deal_orchestrator_agent.py` lines 210-257) -/

/-- The value `run_workflow` returns: the success dict of lines 240-250
or the error dict of lines 254-257 (`message` is `str(e)` of the caught
exception).  `runDate` is the `datetime.now()` date string, passed in as
a parameter of the run. -/
inductive RunResult where
  | success (opportunities : List ScoredOpp) (tasks : List String) (runDate : String)
      (highPriorityCount : Nat) (totalPipelineValue : ℚ) (errors : List String)
  | error (message : String)
  deriving Repr, DecidableEq

/-- The `str(e)` of the `TypeError` Python raises when `run_workflow`
evaluates `sf_results['updated_records']` on the bare list that
`update_salesforce` returns for an empty input. -/
def empty_sf_type_error : String :=
  "list indices must be integers or slices, not str"

/-- `run_workflow` (lines 210-257): the five stages in order, every
uncaught stage exception caught by the surrounding `try` and turned into
the `{"status": "error", "message": str(e)}` dict.  The returned trace is
the concatenation of the stage traces. -/
def run_workflow (cfg : RetryConfig) (env : Env) (today : String) :
    List CallEvent × RunResult :=
  match fetch_opportunities cfg env with
  | (flog, .error e) => (flog, .error e)
  | (flog, .ok rows) =>
    match score_opportunities cfg env rows with
    | (slog, .error e) => (flog ++ slog, .error e)
    | (slog, .ok scored) =>
      match update_salesforce cfg env scored with
      | (ulog, .emptyList) => (flog ++ slog ++ ulog, .error empty_sf_type_error)
      | (ulog, .results acc) =>
        match write_summary cfg env with
        | (wlog, .error e) => (flog ++ slog ++ ulog ++ wlog, .error e)
        | (wlog, .ok _) =>
          (flog ++ slog ++ ulog ++ wlog,
            .success scored acc.created_tasks today acc.high_priority_count
              acc.total_pipeline_value acc.error_records)

/-- A JSON-like value, used to spell out the exact dictionary shape
`run_workflow` returns. -/
inductive JVal where
  | jstr (s : String)
  | jnum (q : ℚ)
  | jnat (n : Nat)
  | jarrOpp (l : List ScoredOpp)
  | jarrStr (l : List String)
  | jobj (fields : List (String × JVal))

/-- The literal dictionary `run_workflow` returns (lines 240-250 on
success, lines 254-257 on error), as an insertion-ordered key/value
list. -/
def run_workflow_json (cfg : RetryConfig) (env : Env) (today : String) :
    List (String × JVal) :=
  match (run_workflow cfg env today).2 with
  | .success opps tasks runDate hpc tpv errs =>
    [("status", .jstr "success"),
     ("opportunities", .jarrOpp opps),
     ("tasks", .jarrStr tasks),
     ("summary", .jobj [("runDate", .jstr runDate),
                        ("highPriorityCount", .jnat hpc),
                        ("totalPipelineValue", .jnum tpv)]),
     ("errors", .jarrStr errs)]
  | .error m =>
    [("status", .jstr "error"), ("message", .jstr m)]

/- ### Accessors and concrete instances used by the theorems -/

/-- Is the outcome a transport exception? -/
def outcome_exn : CallOutcome α → Bool
  | .exn _ => true
  | _ => false

/-- The `status` field of the run result dict. -/
def RunResult.statusStr : RunResult → String
  | .success _ _ _ _ _ _ => "success"
  | .error _ => "error"

/-- The `highPriorityCount` of a successful run result. -/
def RunResult.highPriority : RunResult → Option Nat
  | .success _ _ _ hpc _ _ => some hpc
  | .error _ => none

/-- The `totalPipelineValue` of a successful run result. -/
def RunResult.pipelineValue : RunResult → Option ℚ
  | .success _ _ _ _ tpv _ => some tpv
  | .error _ => none

/-- The keys of a JSON object, in insertion order. -/
def jkeys (fields : List (String × JVal)) : List String :=
  fields.map Prod.fst

/-- Lookup in a JSON object. -/
def jget (fields : List (String × JVal)) (k : String) : Option JVal :=
  (fields.find? (fun p => p.1 == k)).map Prod.snd

/-- The fields of the nested `summary` object of a run result dict. -/
def summary_fields (fields : List (String × JVal)) : List (String × JVal) :=
  match jget fields "summary" with
  | some (.jobj fs) => fs
  | _ => []

/-- The high-priority filter the final aggregate actually uses: the
update call's first attempt returned 200 and `winProbability > 0.8`. -/
def counted_high_priority (env : Env) (o : ScoredOpp) : Bool :=
  outcome_ok (env.updateResp o.id 0) && decide ((0.8 : ℚ) < o.winProbability)

/-- A handler stub that always redirects to the (non-terminal)
`data_retriever` capability. -/
def stub_handler : Handler :=
  fun s => .ok { s with next := "data_retriever" }

/-- All five handlers replaced by the always-redirecting stub. -/
def stub_handlers : Handlers :=
  ⟨stub_handler, stub_handler, stub_handler, stub_handler, stub_handler⟩

/-- A coordinator stub that reports an unrecognized capability name. -/
def unknown_next_handlers : Handlers :=
  { stub_handlers with coordinator_agent := fun s => .ok { s with next := "warehouse_agent" } }

/-- The empty per-record accumulator (`update_salesforce` lines 99-103). -/
def sf_acc0 : SfAcc :=
  { high_priority_count := 0, total_pipeline_value := 0, error_records := []
    updated_records := [], created_tasks := [], log := [] }

/-- Concrete environment: the fetch succeeds, the Databricks score call
always returns a forced 4xx. -/
def envC1 : Env :=
  { fetchResp := fun _ => .ok ["row1"]
    scoreResp := fun _ => .status 400
    updateResp := fun _ _ => .exn "unused"
    taskResp := fun _ => .exn "unused"
    insertResp := fun _ => .exn "unused" }

/-- Five concrete scored opportunities; `o1` and `o5` are above the 0.8
high-priority threshold. -/
def scoredC2 : List ScoredOpp :=
  [⟨"o1", 100, 0.85, "p1"⟩, ⟨"o2", 200, 0.5, "p2"⟩, ⟨"o3", 300, 0.9, "p3"⟩,
   ⟨"o4", 400, 0.3, "p4"⟩, ⟨"o5", 500, 0.81, "p5"⟩]

/-- Concrete environment: every stage succeeds except that the
Salesforce update of `o3` fails with a 404 on every attempt. -/
def envC2 : Env :=
  { fetchResp := fun _ => .ok ["row1"]
    scoreResp := fun _ => .ok scoredC2
    updateResp := fun id _ => if id = "o3" then .status 404 else .ok ("upd-" ++ id)
    taskResp := fun id => .ok ("task-" ++ id)
    insertResp := fun _ => .ok "ack" }

/-- A single scored opportunity above the high-priority threshold. -/
def scoredC4 : List ScoredOpp := [⟨"o1", 100, 0.85, "p1"⟩]

/-- Concrete environment: the single high-probability opportunity's
update fails with a 404; everything else succeeds. -/
def envC4 : Env :=
  { fetchResp := fun _ => .ok ["row1"]
    scoreResp := fun _ => .ok scoredC4
    updateResp := fun _ _ => .status 404
    taskResp := fun id => .ok ("task-" ++ id)
    insertResp := fun _ => .ok "ack" }

/-- Concrete environment: the single high-probability opportunity's
update returns 503 on the first attempt and succeeds on the first inline
retry; everything else succeeds. -/
def envC4b : Env :=
  { fetchResp := fun _ => .ok ["row1"]
    scoreResp := fun _ => .ok scoredC4
    updateResp := fun _ n => if n = 0 then .status 503 else .ok "upd-o1"
    taskResp := fun id => .ok ("task-" ++ id)
    insertResp := fun _ => .ok "ack" }

/-- A stub external call that fails with a 503 once, then succeeds. -/
def callC3 : Nat → CallOutcome Nat :=
  fun i => if i = 0 then .status 503 else .ok 42

/-- The spec's concrete scenario opportunity:
`{id:"opp_001", amount:250000, industry:"Finance", existing_customer:false,
days_in_current_stage:10}`. -/
def oppC5 : Opportunity :=
  ⟨"opp_001", 250000, "Finance", false, 10⟩

/- ### Equality of `Except` values is decidable (used by concrete runs) -/

instance {ε α : Type} [DecidableEq ε] [DecidableEq α] : DecidableEq (Except ε α) := fun a b =>
  match a, b with
  | .ok x, .ok y =>
    if h : x = y then .isTrue (by rw [h]) else .isFalse (by intro hh; cases hh; exact h rfl)
  | .error x, .error y =>
    if h : x = y then .isTrue (by rw [h]) else .isFalse (by intro hh; cases hh; exact h rfl)
  | .ok _, .error _ => .isFalse (by intro hh; cases hh)
  | .error _, .ok _ => .isFalse (by intro hh; cases hh)

/- ### Lemmas about the shared retry loop -/

/-- Every event the retry loop emits is either the call event of its own
endpoint or a backoff sleep. -/
theorem retryGo_events {α : Type} (R : Nat) (B : ℚ) (call : Nat → CallOutcome α)
    (ro : Nat → Bool) (sm : Nat → String) (wf : String → String) (tr : String)
    (ev : CallEvent) :
    ∀ fuel attempt e, e ∈ (retryGo R B call ro sm wf tr ev attempt fuel).1 →
      e = ev ∨ e.isSleep = true := by
  intro fuel
  induction fuel with
  | zero =>
    intro attempt e he
    simp [retryGo] at he
  | succ f ih =>
    intro attempt e he
    cases hc : call attempt with
    | ok v =>
      simp only [retryGo, hc] at he
      simp at he
      exact Or.inl he
    | status c =>
      simp only [retryGo, hc] at he
      by_cases h1 : 500 ≤ c ∧ c < 600 ∧ attempt < R
      · simp only [if_pos h1] at he
        rcases List.mem_cons.mp he with rfl | he2
        · exact Or.inl rfl
        rcases List.mem_cons.mp he2 with rfl | he3
        · exact Or.inr rfl
        · exact ih _ _ he3
      · simp only [if_neg h1] at he
        by_cases h2 : ro c
        · simp only [if_pos h2] at he
          by_cases h3 : attempt < R
          · simp only [if_pos h3] at he
            rcases List.mem_cons.mp he with rfl | he2
            · exact Or.inl rfl
            rcases List.mem_cons.mp he2 with rfl | he3
            · exact Or.inr rfl
            · exact ih _ _ he3
          · simp only [if_neg h3] at he
            simp at he
            exact Or.inl he
        · simp only [if_neg h2] at he
          rcases List.mem_cons.mp he with rfl | he2
          · exact Or.inl rfl
          · exact ih _ _ he2
    | exn m =>
      simp only [retryGo, hc] at he
      by_cases h3 : attempt < R
      · simp only [if_pos h3] at he
        rcases List.mem_cons.mp he with rfl | he2
        · exact Or.inl rfl
        rcases List.mem_cons.mp he2 with rfl | he3
        · exact Or.inr rfl
        · exact ih _ _ he3
      · simp only [if_neg h3] at he
        simp at he
        exact Or.inl he

/-- `calls_of` drops nothing for a non-sleep event. -/
theorem calls_of_cons_ev (ev : CallEvent) (hev : ev.isSleep = false) (l : List CallEvent) :
    calls_of (ev :: l) = ev :: calls_of l := by
  simp [calls_of, List.filter_cons, hev]

/-- `calls_of` drops a sleep event. -/
theorem calls_of_cons_sleep (q : ℚ) (l : List CallEvent) :
    calls_of (CallEvent.sleep q :: l) = calls_of l := by
  simp [calls_of, List.filter_cons, CallEvent.isSleep]

/-- `sleeps_of` drops a non-sleep event. -/
theorem sleeps_of_cons_ev (ev : CallEvent) (hev : ev.isSleep = false) (l : List CallEvent) :
    sleeps_of (ev :: l) = sleeps_of l := by
  cases ev <;> simp [sleeps_of, CallEvent.isSleep] at hev ⊢

/-- `sleeps_of` keeps a sleep event. -/
theorem sleeps_of_cons_sleep (q : ℚ) (l : List CallEvent) :
    sleeps_of (CallEvent.sleep q :: l) = q :: sleeps_of l := by
  simp [sleeps_of]

/-- Empty trace lemmas. -/
theorem calls_of_nil : calls_of [] = [] := rfl

/-- Empty trace lemma for sleeps. -/
theorem sleeps_of_nil : sleeps_of [] = [] := rfl

/-- Success case of the retry loop: `k` retriable failures starting at
`attempt`, then a success, yield the success result after `k + 1` calls
with the exponential-backoff sleeps in between. -/
theorem retryGo_ok_spec {α : Type} (R : Nat) (B : ℚ) (call : Nat → CallOutcome α)
    (ro : Nat → Bool) (sm : Nat → String) (wf : String → String) (tr : String)
    (ev : CallEvent) (hev : ev.isSleep = false) :
    ∀ (k attempt : Nat) (v : α), attempt + k ≤ R →
      (∀ i, i < k → retriable_outcome (call (attempt + i)) = true) →
      call (attempt + k) = .ok v →
      (retryGo R B call ro sm wf tr ev attempt (R + 1 - attempt)).2 = .ok v ∧
      (calls_of (retryGo R B call ro sm wf tr ev attempt (R + 1 - attempt)).1).length = k + 1 ∧
      sleeps_of (retryGo R B call ro sm wf tr ev attempt (R + 1 - attempt)).1 =
        (List.range k).map (fun i => B * 2 ^ (attempt + i)) := by
  intro k
  induction k with
  | zero =>
    intro attempt v hle hfail hok
    obtain ⟨f, hf⟩ : ∃ f, R + 1 - attempt = f + 1 := ⟨R - attempt, by omega⟩
    rw [Nat.add_zero] at hok
    rw [hf]
    simp only [retryGo, hok]
    refine ⟨trivial, ?_, ?_⟩
    · rw [show [ev] = ev :: ([] : List CallEvent) from rfl, calls_of_cons_ev _ hev, calls_of_nil]
      rfl
    · rw [show [ev] = ev :: ([] : List CallEvent) from rfl, sleeps_of_cons_ev _ hev, sleeps_of_nil,
        List.range_zero, List.map_nil]
  | succ k ih =>
    intro attempt v hle hfail hok
    obtain ⟨f, hf⟩ : ∃ f, R + 1 - attempt = f + 1 := ⟨R - attempt, by omega⟩
    have hffuel : R + 1 - (attempt + 1) = f := by omega
    have h0 := hfail 0 (Nat.succ_pos k)
    rw [Nat.add_zero] at h0
    have hlt : attempt < R := by omega
    have hrest := ih (attempt + 1) v (by omega)
      (fun i hi => by
        have := hfail (i + 1) (by omega)
        rwa [show attempt + (i + 1) = attempt + 1 + i by omega] at this)
      (by rwa [show attempt + 1 + k = attempt + (k + 1) by omega])
    rw [hffuel] at hrest
    obtain ⟨h1, h2, h3⟩ := hrest
    have hsleeps : B * 2 ^ attempt ::
        (List.range k).map (fun i => B * 2 ^ (attempt + 1 + i)) =
        (List.range (k + 1)).map (fun i => B * 2 ^ (attempt + i)) := by
      rw [List.range_succ_eq_map, List.map_cons, List.map_map]
      rw [Nat.add_zero]
      congr 1
      apply List.map_congr_left
      intro i _
      simp only [Function.comp]
      have harith : attempt + 1 + i = attempt + (i + 1) := by omega
      rw [harith]
    rw [hf]
    cases hc : call attempt with
    | ok w => rw [hc] at h0; simp [retriable_outcome] at h0
    | status c =>
      have hcc : 500 ≤ c ∧ c < 600 := by
        rw [hc] at h0
        simpa [retriable_outcome] using h0
      simp only [retryGo, hc, if_pos (show 500 ≤ c ∧ c < 600 ∧ attempt < R from ⟨hcc.1, hcc.2, hlt⟩)]
      refine ⟨h1, ?_, ?_⟩
      · rw [calls_of_cons_ev _ hev, calls_of_cons_sleep, List.length_cons, h2]
      · rw [sleeps_of_cons_ev _ hev, sleeps_of_cons_sleep, h3]
        exact hsleeps
    | exn m =>
      simp only [retryGo, hc, if_pos hlt]
      refine ⟨h1, ?_, ?_⟩
      · rw [calls_of_cons_ev _ hev, calls_of_cons_sleep, List.length_cons, h2]
      · rw [sleeps_of_cons_ev _ hev, sleeps_of_cons_sleep, h3]
        exact hsleeps

/-- Exhaustion case of the retry loop: when every remaining attempt fails
with a retriable outcome, the loop ends in an error. -/
theorem retryGo_fail_spec {α : Type} (R : Nat) (B : ℚ) (call : Nat → CallOutcome α)
    (ro : Nat → Bool) (sm : Nat → String) (wf : String → String) (tr : String)
    (ev : CallEvent) :
    ∀ (d attempt : Nat), attempt + d = R →
      (∀ i, attempt ≤ i → i ≤ R → retriable_outcome (call i) = true) →
      ∃ msg, (retryGo R B call ro sm wf tr ev attempt (d + 1)).2 = .error msg := by
  intro d
  induction d with
  | zero =>
    intro attempt hR hfail
    have h0 := hfail attempt le_rfl (by omega)
    have hnlt : ¬ attempt < R := by omega
    cases hc : call attempt with
    | ok w => rw [hc] at h0; simp [retriable_outcome] at h0
    | status c =>
      have hcc : 500 ≤ c ∧ c < 600 := by
        rw [hc] at h0
        simpa [retriable_outcome] using h0
      simp only [retryGo, hc, if_neg (show ¬(500 ≤ c ∧ c < 600 ∧ attempt < R) from
        fun h => hnlt h.2.2)]
      by_cases hro : ro c
      · simp only [if_pos hro, if_neg hnlt]
        exact ⟨_, rfl⟩
      · simp only [if_neg hro]
        exact ⟨tr, by simp [retryGo]⟩
    | exn m =>
      simp only [retryGo, hc, if_neg hnlt]
      exact ⟨_, rfl⟩
  | succ d ih =>
    intro attempt hR hfail
    have h0 := hfail attempt le_rfl (by omega)
    have hlt : attempt < R := by omega
    have hrec := ih (attempt + 1) (by omega) (fun i hi1 hi2 => hfail i (by omega) hi2)
    cases hc : call attempt with
    | ok w => rw [hc] at h0; simp [retriable_outcome] at h0
    | status c =>
      have hcc : 500 ≤ c ∧ c < 600 := by
        rw [hc] at h0
        simpa [retriable_outcome] using h0
      simp only [retryGo, hc, if_pos (show 500 ≤ c ∧ c < 600 ∧ attempt < R from
        ⟨hcc.1, hcc.2, hlt⟩)]
      exact hrec
    | exn m =>
      simp only [retryGo, hc, if_pos hlt]
      exact hrec

/-- A call that succeeds on its first attempt makes exactly one call. -/
theorem retryCall_ok0 {α : Type} (R : Nat) (B : ℚ) (call : Nat → CallOutcome α)
    (ro : Nat → Bool) (sm : Nat → String) (wf : String → String) (tr : String)
    (ev : CallEvent) (v : α) (h : call 0 = .ok v) :
    retryCall R B call ro sm wf tr ev = ([ev], .ok v) := by
  unfold retryCall
  simp [retryGo, h]

/-- C3: for every external call wrapped by the retry policy (the Fetch,
Score and WriteSummary stages are the instances, as the last three
conjuncts record), `k < R` retriable failures followed by a success make
the wrapper return the success result after exactly `k + 1` invocations,
with the sleep before the `i`-th (0-indexed) retry equal to `B * 2 ^ i`;
and when all `R + 1` attempts fail retriably (i.e. after `R` failed
retries) the wrapper raises an explicit error. -/
theorem retry_wrapper_policy {α : Type} (R : Nat) (B : ℚ) (call : Nat → CallOutcome α)
    (ro : Nat → Bool) (sm : Nat → String) (wf : String → String) (tr : String)
    (ev : CallEvent) (hev : ev.isSleep = false) :
    (∀ (k : Nat) (v : α), k < R →
      (∀ i, i < k → retriable_outcome (call i) = true) →
      call k = .ok v →
      (retryCall R B call ro sm wf tr ev).2 = .ok v ∧
      (calls_of (retryCall R B call ro sm wf tr ev).1).length = k + 1 ∧
      sleeps_of (retryCall R B call ro sm wf tr ev).1 =
        (List.range k).map (fun i => B * 2 ^ i)) ∧
    ((∀ i, i ≤ R → retriable_outcome (call i) = true) →
      ∃ msg, (retryCall R B call ro sm wf tr ev).2 = .error msg) ∧
    (∀ (cfg : RetryConfig) (env : Env), fetch_opportunities cfg env =
      retryCall cfg.max_retries cfg.backoff_factor env.fetchResp
        (fun c => decide (400 ≤ c)) raise_for_status_msg (fun m => m)
        "Failed to fetch opportunities from Snowflake" CallEvent.fetchCall) ∧
    (∀ (cfg : RetryConfig) (env : Env) (rows : List String), rows ≠ [] →
      score_opportunities cfg env rows =
      retryCall cfg.max_retries cfg.backoff_factor env.scoreResp (fun _ => true)
        (fun c => "Critical error: Databricks scoring failed with status " ++ toString c)
        (fun m => "Critical error in Databricks: " ++ m)
        "Failed to score opportunities in Databricks" CallEvent.scoreCall) ∧
    (∀ (cfg : RetryConfig) (env : Env), write_summary cfg env =
      retryCall cfg.max_retries cfg.backoff_factor env.insertResp
        (fun c => decide (400 ≤ c)) raise_for_status_msg (fun m => m)
        "Failed to write summary to Snowflake" CallEvent.insertCall) := by
  refine ⟨?_, ?_, fun _ _ => rfl, ?_, fun _ _ => rfl⟩
  · intro k v hk hfail hok
    have h := retryGo_ok_spec R B call ro sm wf tr ev hev k 0 v (by omega)
      (fun i hi => by simpa using hfail i hi) (by simpa using hok)
    simp only [Nat.sub_zero, Nat.zero_add] at h
    obtain ⟨h1, h2, h3⟩ := h
    exact ⟨h1, h2, h3⟩
  · intro hall
    have h := retryGo_fail_spec R B call ro sm wf tr ev R 0 (by omega)
      (fun i _ hi2 => hall i hi2)
    exact h
  · intro cfg env rows hrows
    cases rows with
    | nil => exact absurd rfl hrows
    | cons a l => rfl

/-- Instantiates C3 at `R = 2`, `B = 1.5` and a stub call that fails
with a 503 once then succeeds: one retry, one backoff sleep of `B`. -/
theorem retry_wrapper_policy_witness :
    (retryCall 2 1.5 callC3 (fun c => decide (400 ≤ c)) raise_for_status_msg
      (fun m => m) "t" CallEvent.fetchCall).2 = .ok 42 ∧
    (calls_of (retryCall 2 1.5 callC3 (fun c => decide (400 ≤ c)) raise_for_status_msg
      (fun m => m) "t" CallEvent.fetchCall).1).length = 1 + 1 ∧
    sleeps_of (retryCall 2 1.5 callC3 (fun c => decide (400 ≤ c)) raise_for_status_msg
      (fun m => m) "t" CallEvent.fetchCall).1 =
      (List.range 1).map (fun i => (1.5 : ℚ) * 2 ^ i) :=
  (retry_wrapper_policy 2 1.5 callC3 (fun c => decide (400 ≤ c)) raise_for_status_msg
    (fun m => m) "t" CallEvent.fetchCall rfl).1 1 42 (by decide)
    (by decide) rfl

/-- Every event the Fetch stage emits is its own call or a sleep. -/
theorem fetch_events (cfg : RetryConfig) (env : Env) :
    ∀ e ∈ (fetch_opportunities cfg env).1, e = CallEvent.fetchCall ∨ e.isSleep = true := by
  intro e he
  exact retryGo_events _ _ _ _ _ _ _ _ _ _ e he

/-- Every event the Score stage emits is its own call or a sleep. -/
theorem score_events (cfg : RetryConfig) (env : Env) (rows : List String) :
    ∀ e ∈ (score_opportunities cfg env rows).1,
      e = CallEvent.scoreCall ∨ e.isSleep = true := by
  intro e he
  by_cases h : rows.isEmpty
  · simp [score_opportunities, h] at he
  · simp only [score_opportunities, if_neg h] at he
    exact retryGo_events _ _ _ _ _ _ _ _ _ _ e he

/-- A trace consisting only of one endpoint's calls and sleeps contains
no event matched by a predicate that rejects both. -/
theorem stage_filter_nil (l : List CallEvent) (ev : CallEvent)
    (hl : ∀ e ∈ l, e = ev ∨ e.isSleep = true)
    (p : CallEvent → Bool) (hev : p ev = false)
    (hsleep : ∀ q, p (CallEvent.sleep q) = false) :
    l.filter p = [] := by
  rw [List.filter_eq_nil_iff]
  intro a ha
  rcases hl a ha with rfl | hs
  · simp [hev]
  · cases a <;> simp [CallEvent.isSleep] at hs ⊢ <;> simp [hsleep]

/-- C1: if the Fetch stage succeeds but the Score stage raises (as a
forced 4xx makes it do after its retries), `run_workflow` returns a
result with status error carrying the raised message, and its trace
contains no UpdateRecord, CreateFollowUp or WriteSummary call: no
subsequent stage runs. -/
theorem score_abort_semantics (cfg : RetryConfig) (env : Env) (today : String)
    (rows : List String) (msg : String)
    (hf : (fetch_opportunities cfg env).2 = .ok rows)
    (hs : (score_opportunities cfg env rows).2 = .error msg) :
    (run_workflow cfg env today).2 = .error msg ∧
    (run_workflow cfg env today).1.filter is_update_call = [] ∧
    (run_workflow cfg env today).1.filter is_task_call = [] ∧
    (run_workflow cfg env today).1.filter is_insert_call = [] := by
  rcases hfp : fetch_opportunities cfg env with ⟨flog, fres⟩
  have hfres : fres = .ok rows := by rw [hfp] at hf; exact hf
  subst hfres
  rcases hsp : score_opportunities cfg env rows with ⟨slog, sres⟩
  have hsres : sres = .error msg := by rw [hsp] at hs; exact hs
  subst hsres
  have hrun : run_workflow cfg env today = (flog ++ slog, .error msg) := by
    simp only [run_workflow, hfp, hsp]
  have hmem : ∀ e ∈ flog ++ slog,
      (is_update_call e = false ∧ is_task_call e = false ∧ is_insert_call e = false) := by
    intro e he
    rcases List.mem_append.mp he with h | h
    · have h2 := fetch_events cfg env e (by rw [hfp]; exact h)
      rcases h2 with rfl | hsl
      · exact ⟨rfl, rfl, rfl⟩
      · cases e <;>
          simp [CallEvent.isSleep, is_update_call, is_task_call, is_insert_call] at hsl ⊢
    · have h2 := score_events cfg env rows e (by rw [hsp]; exact h)
      rcases h2 with rfl | hsl
      · exact ⟨rfl, rfl, rfl⟩
      · cases e <;>
          simp [CallEvent.isSleep, is_update_call, is_task_call, is_insert_call] at hsl ⊢
  rw [hrun]
  refine ⟨rfl, ?_, ?_, ?_⟩ <;>
    · rw [List.filter_eq_nil_iff]
      intro a ha
      have := hmem a ha
      simp [this.1, this.2.1, this.2.2]

/-- Instantiates C1: a forced 4xx on the Databricks score call aborts the
run with the wrapped critical-error message and no downstream calls. -/
theorem score_abort_semantics_witness :
    (run_workflow default_retry_config envC1 "2025-06-01").2 =
      .error "Critical error in Databricks: Critical error: Databricks scoring failed with status 400" ∧
    (run_workflow default_retry_config envC1 "2025-06-01").1.filter is_update_call = [] ∧
    (run_workflow default_retry_config envC1 "2025-06-01").1.filter is_task_call = [] ∧
    (run_workflow default_retry_config envC1 "2025-06-01").1.filter is_insert_call = [] :=
  score_abort_semantics default_retry_config envC1 "2025-06-01" ["row1"] _ rfl rfl

/- ### Per-record lemmas for the Salesforce update stage -/

/-- First-attempt 200 with a successful follow-up task: the record and
the task are appended, and the deal is counted when its probability
exceeds 0.8. -/
theorem process_opp_ok (cfg : RetryConfig) (env : Env) (acc : SfAcc) (o : ScoredOpp)
    (b tb : String) (h1 : env.updateResp o.id 0 = .ok b) (h2 : env.taskResp o.id = .ok tb) :
    process_opp cfg env acc o =
      { high_priority_count := acc.high_priority_count +
          (if (0.8 : ℚ) < o.winProbability then 1 else 0)
        total_pipeline_value := acc.total_pipeline_value +
          (if (0.8 : ℚ) < o.winProbability then o.amount else 0)
        error_records := acc.error_records
        updated_records := acc.updated_records ++ [b]
        created_tasks := acc.created_tasks ++ [tb]
        log := acc.log ++ [CallEvent.updateCall o.id, CallEvent.taskCall o.id] } := by
  simp only [process_opp, h1, h2]
  split_ifs with hp <;> simp [List.append_assoc]

/-- First-attempt 200 with a non-200 task response: as above, but no task
is recorded (the failure is only logged). -/
theorem process_opp_task_status (cfg : RetryConfig) (env : Env) (acc : SfAcc) (o : ScoredOpp)
    (b : String) (c : Nat) (h1 : env.updateResp o.id 0 = .ok b)
    (h2 : env.taskResp o.id = .status c) :
    process_opp cfg env acc o =
      { high_priority_count := acc.high_priority_count +
          (if (0.8 : ℚ) < o.winProbability then 1 else 0)
        total_pipeline_value := acc.total_pipeline_value +
          (if (0.8 : ℚ) < o.winProbability then o.amount else 0)
        error_records := acc.error_records
        updated_records := acc.updated_records ++ [b]
        created_tasks := acc.created_tasks
        log := acc.log ++ [CallEvent.updateCall o.id, CallEvent.taskCall o.id] } := by
  simp only [process_opp, h1, h2]
  split_ifs with hp <;> simp [List.append_assoc]

/-- First-attempt 200 with a task transport exception: the record is in
`updated_records` and its id lands in `error_records`; nothing is
counted. -/
theorem process_opp_task_exn (cfg : RetryConfig) (env : Env) (acc : SfAcc) (o : ScoredOpp)
    (b m : String) (h1 : env.updateResp o.id 0 = .ok b) (h2 : env.taskResp o.id = .exn m) :
    process_opp cfg env acc o =
      { high_priority_count := acc.high_priority_count
        total_pipeline_value := acc.total_pipeline_value
        error_records := acc.error_records ++ [o.id]
        updated_records := acc.updated_records ++ [b]
        created_tasks := acc.created_tasks
        log := acc.log ++ [CallEvent.updateCall o.id, CallEvent.taskCall o.id] } := by
  simp only [process_opp, h1, h2]
  simp [List.append_assoc]

/-- First-attempt 4xx: the id goes to the error list and nothing else
changes. -/
theorem process_opp_4xx (cfg : RetryConfig) (env : Env) (acc : SfAcc) (o : ScoredOpp)
    (c : Nat) (h1 : env.updateResp o.id 0 = .status c) (h4 : 400 ≤ c) (h5 : c < 500) :
    process_opp cfg env acc o =
      { acc with
        error_records := acc.error_records ++ [o.id]
        log := acc.log ++ [CallEvent.updateCall o.id] } := by
  simp only [process_opp, h1]
  rw [if_pos ⟨h4, h5⟩]

/-- First-attempt 5xx: whatever the inline retry loop does, the
high-priority counters and the created-task list are untouched. -/
theorem process_opp_5xx_counters (cfg : RetryConfig) (env : Env) (acc : SfAcc) (o : ScoredOpp)
    (c : Nat) (h1 : env.updateResp o.id 0 = .status c) (h5 : 500 ≤ c) (h6 : c < 600) :
    (process_opp cfg env acc o).high_priority_count = acc.high_priority_count ∧
    (process_opp cfg env acc o).total_pipeline_value = acc.total_pipeline_value ∧
    (process_opp cfg env acc o).created_tasks = acc.created_tasks := by
  simp only [process_opp, h1]
  rw [if_neg (by omega), if_pos ⟨h5, h6⟩]
  rcases hr : sf_retry cfg.backoff_factor env o.id 0 cfg.max_retries with ⟨l, out⟩
  cases out <;> simp

/-- A first-attempt status that is neither 200 nor 4xx nor 5xx matches no
branch: the record is skipped silently. -/
theorem process_opp_other (cfg : RetryConfig) (env : Env) (acc : SfAcc) (o : ScoredOpp)
    (c : Nat) (h1 : env.updateResp o.id 0 = .status c)
    (h4 : ¬(400 ≤ c ∧ c < 500)) (h5 : ¬(500 ≤ c ∧ c < 600)) :
    process_opp cfg env acc o = { acc with log := acc.log ++ [CallEvent.updateCall o.id] } := by
  simp only [process_opp, h1]
  rw [if_neg h4, if_neg h5]

/-- A first-attempt transport exception sends the id to the error list. -/
theorem process_opp_exn0 (cfg : RetryConfig) (env : Env) (acc : SfAcc) (o : ScoredOpp)
    (m : String) (h1 : env.updateResp o.id 0 = .exn m) :
    process_opp cfg env acc o =
      { acc with
        error_records := acc.error_records ++ [o.id]
        log := acc.log ++ [CallEvent.updateCall o.id] } := by
  simp only [process_opp, h1]

/-- The high-priority counter and pipeline value change exactly by the
contribution of records whose first update attempt succeeded and whose
probability exceeds 0.8 (provided the task call raises no transport
exception, which would skip the accounting). -/
theorem process_opp_counters (cfg : RetryConfig) (env : Env) (acc : SfAcc) (o : ScoredOpp)
    (htask : outcome_exn (env.taskResp o.id) = false) :
    (process_opp cfg env acc o).high_priority_count =
      acc.high_priority_count + (if counted_high_priority env o = true then 1 else 0) ∧
    (process_opp cfg env acc o).total_pipeline_value =
      acc.total_pipeline_value + (if counted_high_priority env o = true then o.amount else 0) := by
  cases h1 : env.updateResp o.id 0 with
  | ok b =>
    have hco : counted_high_priority env o = decide ((0.8 : ℚ) < o.winProbability) := by
      unfold counted_high_priority
      rw [h1]
      simp [outcome_ok]
    cases h2 : env.taskResp o.id with
    | ok tb =>
      rw [process_opp_ok cfg env acc o b tb h1 h2]
      simp [hco]
    | status c =>
      rw [process_opp_task_status cfg env acc o b c h1 h2]
      simp [hco]
    | exn m => rw [h2] at htask; simp [outcome_exn] at htask
  | status c =>
    have hco : counted_high_priority env o = false := by
      unfold counted_high_priority
      rw [h1]
      simp [outcome_ok]
    by_cases h45 : 400 ≤ c ∧ c < 500
    · rw [process_opp_4xx cfg env acc o c h1 h45.1 h45.2]
      simp [hco]
    · by_cases h56 : 500 ≤ c ∧ c < 600
      · have h := process_opp_5xx_counters cfg env acc o c h1 h56.1 h56.2
        rw [h.1, h.2.1]
        simp [hco]
      · rw [process_opp_other cfg env acc o c h1 h45 h56]
        simp [hco]
  | exn m =>
    have hco : counted_high_priority env o = false := by
      unfold counted_high_priority
      rw [h1]
      simp [outcome_ok]
    rw [process_opp_exn0 cfg env acc o m h1]
    simp [hco]

/-- Splitting a list's length over a Boolean predicate. -/
theorem filter_length_split {α : Type} (l : List α) (p : α → Bool) :
    (l.filter p).length + (l.filter (fun a => !(p a))).length = l.length := by
  induction l with
  | nil => simp
  | cons a tl ih =>
    cases hp : p a <;> simp [List.filter_cons, hp] <;> omega

/-- Folding the per-record body accumulates the high-priority counters
exactly over the records whose first update attempt succeeded and whose
probability exceeds 0.8. -/
theorem sf_fold_counters (cfg : RetryConfig) (env : Env) :
    ∀ (l : List ScoredOpp) (acc : SfAcc),
      (∀ o ∈ l, outcome_exn (env.taskResp o.id) = false) →
      (l.foldl (process_opp cfg env) acc).high_priority_count =
        acc.high_priority_count +
          (l.filter (fun o => counted_high_priority env o)).length ∧
      (l.foldl (process_opp cfg env) acc).total_pipeline_value =
        acc.total_pipeline_value +
          ((l.filter (fun o => counted_high_priority env o)).map (fun o => o.amount)).sum := by
  intro l
  induction l with
  | nil => intro acc _; simp
  | cons o tl ih =>
    intro acc h
    have hstep := process_opp_counters cfg env acc o (h o (List.mem_cons_self o tl))
    have ihh := ih (process_opp cfg env acc o) (fun x hx => h x (List.mem_cons_of_mem o hx))
    simp only [List.foldl_cons]
    constructor
    · rw [ihh.1, hstep.1]
      cases hco : counted_high_priority env o <;> simp [List.filter_cons, hco] <;> omega
    · rw [ihh.2, hstep.2]
      cases hco : counted_high_priority env o <;> simp [List.filter_cons, hco] <;> ring

/-- C4 (amended): in the final aggregate, `high_priority_count` counts
exactly the scored opportunities whose UpdateRecord call succeeded on its
first attempt and whose win probability exceeds 0.8, and
`total_pipeline_value` sums the amounts over that same set — records
whose update only succeeded through the inline 5xx retry, or failed, are
excluded (assuming no task call raises a transport exception, which
would additionally skip one record's accounting). -/
theorem aggregate_first_attempt_accounting (cfg : RetryConfig) (env : Env)
    (scored : List ScoredOpp) (hne : scored ≠ [])
    (htask : ∀ o ∈ scored, outcome_exn (env.taskResp o.id) = false) :
    ∃ acc, update_salesforce cfg env scored = (acc.log, .results acc) ∧
      acc.high_priority_count =
        (scored.filter (fun o => counted_high_priority env o)).length ∧
      acc.total_pipeline_value =
        ((scored.filter (fun o => counted_high_priority env o)).map (fun o => o.amount)).sum := by
  have hfold := sf_fold_counters cfg env scored sf_acc0 htask
  refine ⟨scored.foldl (process_opp cfg env) sf_acc0, ?_, ?_, ?_⟩
  · cases scored with
    | nil => exact absurd rfl hne
    | cons a tl => rfl
  · rw [hfold.1]
    simp [sf_acc0]
  · rw [hfold.2]
    simp [sf_acc0]

/-- C4 counterexample: with one scored opportunity at probability 0.85
whose update fails with 404, the run succeeds with
`high_priority_count = 0` although one scored opportunity exceeds 0.8;
and with the same opportunity succeeding only on the inline 5xx retry,
its update succeeds (`updated_records` has the record) yet
`total_pipeline_value` is 0, not the 100 the claim's sum predicts. -/
theorem aggregate_threshold_counterexample :
    (run_workflow default_retry_config envC4 "2025-06-01").2 =
      .success scoredC4 [] "2025-06-01" 0 0 ["o1"] ∧
    (scoredC4.filter (fun o => decide ((0.8 : ℚ) < o.winProbability))).length = 1 ∧
    (run_workflow default_retry_config envC4 "2025-06-01").2.highPriority ≠
      some ((scoredC4.filter (fun o => decide ((0.8 : ℚ) < o.winProbability))).length) ∧
    (run_workflow default_retry_config envC4b "2025-06-01").2 =
      .success scoredC4 [] "2025-06-01" 0 0 [] ∧
    (update_salesforce default_retry_config envC4b scoredC4).2 = .results
      { high_priority_count := 0, total_pipeline_value := 0, error_records := []
        updated_records := ["upd-o1"], created_tasks := []
        log := [.updateCall "o1", .sleep (1.5 * 2 ^ 0), .updateCall "o1"] } ∧
    (run_workflow default_retry_config envC4b "2025-06-01").2.pipelineValue ≠
      some (((scoredC4.filter (fun o => decide ((0.8 : ℚ) < o.winProbability))).map
        (fun o => o.amount)).sum) := by
  have hlen : (scoredC4.filter (fun o => decide ((0.8 : ℚ) < o.winProbability))).length = 1 := by
    norm_num [scoredC4]
  have hsum : ((scoredC4.filter (fun o => decide ((0.8 : ℚ) < o.winProbability))).map
      (fun o => o.amount)).sum = 100 := by
    norm_num [scoredC4]
  refine ⟨rfl, hlen, ?_, rfl, rfl, ?_⟩
  · rw [hlen]
    have hval : (run_workflow default_retry_config envC4 "2025-06-01").2.highPriority =
        some 0 := rfl
    rw [hval]
    simp
  · rw [hsum]
    have hval : (run_workflow default_retry_config envC4b "2025-06-01").2.pipelineValue =
        some 0 := rfl
    rw [hval]
    intro h
    have := Option.some.inj h
    norm_num at this

/-- Instantiates the amended C4 at the environment where `o3` of five
records fails with 404: only the two first-attempt-updated
high-probability deals are counted. -/
theorem aggregate_first_attempt_accounting_witness :
    ∃ acc, update_salesforce default_retry_config envC2 scoredC2 = (acc.log, .results acc) ∧
      acc.high_priority_count =
        (scoredC2.filter (fun o => counted_high_priority envC2 o)).length ∧
      acc.total_pipeline_value =
        ((scoredC2.filter (fun o => counted_high_priority envC2 o)).map (fun o => o.amount)).sum :=
  aggregate_first_attempt_accounting default_retry_config envC2 scoredC2
    (by simp [scoredC2]) (by decide)

/-- Folding the per-record body over records that either fail with a 4xx
(exactly the ones whose id is `bad`) or succeed with a successful task:
the updated and task lists grow by the non-`bad` count, the error list
collects exactly the `bad` ids, the old trace is preserved, and a task
call is attempted for every non-`bad` record. -/
theorem sf_fold_one_bad (cfg : RetryConfig) (env : Env) (bad : String) :
    ∀ (l : List ScoredOpp) (acc : SfAcc),
      (∀ o ∈ l, (o.id = bad ∧ outcome_4xx (env.updateResp o.id 0) = true) ∨
        (o.id ≠ bad ∧ outcome_ok (env.updateResp o.id 0) = true ∧
          outcome_ok (env.taskResp o.id) = true)) →
      ((l.foldl (process_opp cfg env) acc).updated_records.length =
        acc.updated_records.length + (l.filter (fun o => !(o.id == bad))).length) ∧
      ((l.foldl (process_opp cfg env) acc).error_records =
        acc.error_records ++ (l.filter (fun o => o.id == bad)).map (fun o => o.id)) ∧
      ((l.foldl (process_opp cfg env) acc).created_tasks.length =
        acc.created_tasks.length + (l.filter (fun o => !(o.id == bad))).length) ∧
      (∀ e ∈ acc.log, e ∈ (l.foldl (process_opp cfg env) acc).log) ∧
      (∀ o ∈ l, o.id ≠ bad →
        CallEvent.taskCall o.id ∈ (l.foldl (process_opp cfg env) acc).log) := by
  intro l
  induction l with
  | nil =>
    intro acc _
    simp
  | cons o tl ih =>
    intro acc h
    have ihh := ih (process_opp cfg env acc o) (fun x hx => h x (List.mem_cons_of_mem o hx))
    obtain ⟨i1, i2, i3, i4, i5⟩ := ihh
    simp only [List.foldl_cons] at i1 i2 i3 i4 i5 ⊢
    rcases h o (List.mem_cons_self o tl) with ⟨hid, h4⟩ | ⟨hid, hupd, htsk⟩
    · obtain ⟨c, hc, hc4, hc5⟩ : ∃ c, env.updateResp o.id 0 = .status c ∧ 400 ≤ c ∧ c < 500 := by
        cases hcc : env.updateResp o.id 0 with
        | status c =>
          rw [hcc] at h4
          simp only [outcome_4xx, Bool.and_eq_true, decide_eq_true_eq] at h4
          exact ⟨c, rfl, h4.1, h4.2⟩
        | ok b => rw [hcc] at h4; simp [outcome_4xx] at h4
        | exn m => rw [hcc] at h4; simp [outcome_4xx] at h4
      have hstep := process_opp_4xx cfg env acc o c hc hc4 hc5
      have hft : (o :: tl).filter (fun x => x.id == bad) =
          o :: tl.filter (fun x => x.id == bad) := by
        simp [List.filter_cons, hid]
      have hff : (o :: tl).filter (fun x => !(x.id == bad)) =
          tl.filter (fun x => !(x.id == bad)) := by
        simp [List.filter_cons, hid]
      refine ⟨?_, ?_, ?_, ?_, ?_⟩
      · rw [hff, i1, hstep]
      · rw [i2, hstep, hft]
        simp [List.append_assoc]
      · rw [hff, i3, hstep]
      · intro e he
        apply i4
        rw [hstep]
        simp only [SfAcc.mk.injEq]
        exact List.mem_append_left _ he
      · intro x hx hxid
        rcases List.mem_cons.mp hx with rfl | hxtl
        · exact absurd hid hxid
        · exact i5 x hxtl hxid
    · obtain ⟨b, hb⟩ : ∃ b, env.updateResp o.id 0 = .ok b := by
        cases hcc : env.updateResp o.id 0 with
        | ok b => exact ⟨b, rfl⟩
        | status c => rw [hcc] at hupd; simp [outcome_ok] at hupd
        | exn m => rw [hcc] at hupd; simp [outcome_ok] at hupd
      obtain ⟨tb, htb⟩ : ∃ tb, env.taskResp o.id = .ok tb := by
        cases hcc : env.taskResp o.id with
        | ok tb => exact ⟨tb, rfl⟩
        | status c => rw [hcc] at htsk; simp [outcome_ok] at htsk
        | exn m => rw [hcc] at htsk; simp [outcome_ok] at htsk
      have hstep := process_opp_ok cfg env acc o b tb hb htb
      have hft : (o :: tl).filter (fun x => x.id == bad) =
          tl.filter (fun x => x.id == bad) := by
        simp [List.filter_cons, hid]
      have hff : (o :: tl).filter (fun x => !(x.id == bad)) =
          o :: tl.filter (fun x => !(x.id == bad)) := by
        simp [List.filter_cons, hid]
      refine ⟨?_, ?_, ?_, ?_, ?_⟩
      · rw [hff, i1, hstep]
        simp
        omega
      · rw [i2, hstep, hft]
      · rw [hff, i3, hstep]
        simp
        omega
      · intro e he
        apply i4
        rw [hstep]
        exact List.mem_append_left _ he
      · intro x hx hxid
        rcases List.mem_cons.mp hx with rfl | hxtl
        · apply i4
          rw [hstep]
          simp
        · exact i5 x hxtl hxid

/-- C2: with five scored opportunities of which exactly one id gets a 4xx
from UpdateRecord (the rest succeeding, with successful task calls and a
successful summary insert), the update stage never aborts: the run
completes with status success, `updated_records` has 4 entries,
`error_records` is exactly the failing id, and a CreateFollowUp call is
attempted (and succeeds) for each successfully updated opportunity. -/
theorem per_record_resilience (cfg : RetryConfig) (env : Env) (today : String)
    (rows : List String) (scored : List ScoredOpp) (bad : String) (ack : String)
    (hf : (fetch_opportunities cfg env).2 = .ok rows)
    (hs : (score_opportunities cfg env rows).2 = .ok scored)
    (hlen : scored.length = 5)
    (hone : (scored.filter (fun o => o.id == bad)).length = 1)
    (hbeh : ∀ o ∈ scored, (o.id = bad ∧ outcome_4xx (env.updateResp o.id 0) = true) ∨
      (o.id ≠ bad ∧ outcome_ok (env.updateResp o.id 0) = true ∧
        outcome_ok (env.taskResp o.id) = true))
    (hw : env.insertResp 0 = .ok ack) :
    ∃ acc, update_salesforce cfg env scored = (acc.log, .results acc) ∧
      acc.updated_records.length = 4 ∧
      acc.error_records = [bad] ∧
      acc.created_tasks.length = 4 ∧
      (∀ o ∈ scored, o.id ≠ bad → CallEvent.taskCall o.id ∈ acc.log) ∧
      (run_workflow cfg env today).2 = .success scored acc.created_tasks today
        acc.high_priority_count acc.total_pipeline_value [bad] ∧
      (run_workflow cfg env today).2.statusStr = "success" := by
  obtain ⟨i1, i2, i3, i4, i5⟩ := sf_fold_one_bad cfg env bad scored sf_acc0 hbeh
  have hnot4 : (scored.filter (fun o => !(o.id == bad))).length = 4 := by
    have := filter_length_split scored (fun o => o.id == bad)
    omega
  have hmap : (scored.filter (fun o => o.id == bad)).map (fun o => o.id) = [bad] := by
    obtain ⟨x, hx⟩ := List.length_eq_one.mp hone
    have hxmem : x ∈ scored.filter (fun o => o.id == bad) := by
      rw [hx]
      exact List.mem_cons_self x []
    have hxid := (List.mem_filter.mp hxmem).2
    simp only [beq_iff_eq] at hxid
    rw [hx]
    simp [hxid]
  have hup : update_salesforce cfg env scored =
      ((scored.foldl (process_opp cfg env) sf_acc0).log,
        .results (scored.foldl (process_opp cfg env) sf_acc0)) := by
    cases scored with
    | nil => simp at hlen
    | cons a tl => rfl
  have herr : (scored.foldl (process_opp cfg env) sf_acc0).error_records = [bad] := by
    rw [i2, hmap]
    rfl
  have hupd4 : (scored.foldl (process_opp cfg env) sf_acc0).updated_records.length = 4 := by
    rw [i1, hnot4]
    rfl
  have htask4 : (scored.foldl (process_opp cfg env) sf_acc0).created_tasks.length = 4 := by
    rw [i3, hnot4]
    rfl
  rcases hfp : fetch_opportunities cfg env with ⟨flog, fres⟩
  have hfres : fres = .ok rows := by rw [hfp] at hf; exact hf
  subst hfres
  rcases hsp : score_opportunities cfg env rows with ⟨slog, sres⟩
  have hsres : sres = .ok scored := by rw [hsp] at hs; exact hs
  subst hsres
  have hwr : write_summary cfg env = ([CallEvent.insertCall], .ok ack) :=
    retryCall_ok0 cfg.max_retries cfg.backoff_factor env.insertResp _ _ _ _ _ ack hw
  have hrun : (run_workflow cfg env today).2 =
      .success scored (scored.foldl (process_opp cfg env) sf_acc0).created_tasks today
        (scored.foldl (process_opp cfg env) sf_acc0).high_priority_count
        (scored.foldl (process_opp cfg env) sf_acc0).total_pipeline_value
        (scored.foldl (process_opp cfg env) sf_acc0).error_records := by
    simp only [run_workflow, hfp, hsp, hup, hwr]
  refine ⟨scored.foldl (process_opp cfg env) sf_acc0, hup, hupd4, herr, htask4, i5, ?_, ?_⟩
  · rw [hrun, herr]
  · rw [hrun]
    rfl

/-- Instantiates C2: five concrete opportunities, `o3` failing with 404. -/
theorem per_record_resilience_witness :
    ∃ acc, update_salesforce default_retry_config envC2 scoredC2 = (acc.log, .results acc) ∧
      acc.updated_records.length = 4 ∧
      acc.error_records = ["o3"] ∧
      acc.created_tasks.length = 4 ∧
      (∀ o ∈ scoredC2, o.id ≠ "o3" → CallEvent.taskCall o.id ∈ acc.log) ∧
      (run_workflow default_retry_config envC2 "2025-06-01").2 =
        .success scoredC2 acc.created_tasks "2025-06-01"
          acc.high_priority_count acc.total_pipeline_value ["o3"] ∧
      (run_workflow default_retry_config envC2 "2025-06-01").2.statusStr = "success" :=
  per_record_resilience default_retry_config envC2 "2025-06-01" ["row1"] scoredC2 "o3" "ack"
    rfl rfl rfl rfl (by decide) rfl

/-- C10: a record whose UpdateRecord call returns 5xx first and then
succeeds during the inline retry loop is appended to `updated_records`,
but no CreateFollowUp call happens for it (the trace gains no task call)
and it contributes nothing to `high_priority_count` or
`total_pipeline_value` regardless of its probability — unlike a record
whose update succeeds on the first attempt, which gets a follow-up task
and (when its probability exceeds 0.8) is counted. -/
theorem retry_success_skips_followup (cfg : RetryConfig) (env : Env) (acc : SfAcc)
    (o : ScoredOpp) (c : Nat) (body : String)
    (hc5 : 500 ≤ c) (hc6 : c < 600)
    (h0 : env.updateResp o.id 0 = .status c)
    (h1 : env.updateResp o.id 1 = .ok body)
    (hR : 1 ≤ cfg.max_retries) :
    process_opp cfg env acc o =
      { acc with
        updated_records := acc.updated_records ++ [body]
        log := acc.log ++ [CallEvent.updateCall o.id,
          CallEvent.sleep (cfg.backoff_factor * 2 ^ 0), CallEvent.updateCall o.id] } ∧
    (process_opp cfg env acc o).high_priority_count = acc.high_priority_count ∧
    (process_opp cfg env acc o).total_pipeline_value = acc.total_pipeline_value ∧
    (process_opp cfg env acc o).created_tasks = acc.created_tasks ∧
    (process_opp cfg env acc o).error_records = acc.error_records ∧
    (process_opp cfg env acc o).log.filter is_task_call = acc.log.filter is_task_call ∧
    (∀ env' : Env, ∀ tb : String, env'.updateResp o.id 0 = .ok body →
      env'.taskResp o.id = .ok tb → (0.8 : ℚ) < o.winProbability →
      process_opp cfg env' acc o =
        { high_priority_count := acc.high_priority_count + 1
          total_pipeline_value := acc.total_pipeline_value + o.amount
          error_records := acc.error_records
          updated_records := acc.updated_records ++ [body]
          created_tasks := acc.created_tasks ++ [tb]
          log := acc.log ++ [CallEvent.updateCall o.id, CallEvent.taskCall o.id] }) := by
  have hretry : sf_retry cfg.backoff_factor env o.id 0 cfg.max_retries =
      ([CallEvent.sleep (cfg.backoff_factor * 2 ^ 0), CallEvent.updateCall o.id],
        .success body) := by
    obtain ⟨f, hfr⟩ : ∃ f, cfg.max_retries = f + 1 := ⟨cfg.max_retries - 1, by omega⟩
    rw [hfr]
    simp [sf_retry, h1]
  have hmain : process_opp cfg env acc o =
      { acc with
        updated_records := acc.updated_records ++ [body]
        log := acc.log ++ [CallEvent.updateCall o.id,
          CallEvent.sleep (cfg.backoff_factor * 2 ^ 0), CallEvent.updateCall o.id] } := by
    simp only [process_opp, h0]
    rw [if_neg (by omega), if_pos ⟨hc5, hc6⟩, hretry]
    simp [List.append_assoc]
  refine ⟨hmain, ?_, ?_, ?_, ?_, ?_, ?_⟩
  · rw [hmain]
  · rw [hmain]
  · rw [hmain]
  · rw [hmain]
  · rw [hmain]
    simp [List.filter_append, is_task_call]
  · intro env' tb hu ht hp
    rw [process_opp_ok cfg env' acc o body tb hu ht]
    simp [hp]

/-- Instantiates C10: a 0.85-probability record succeeding only on the
first inline retry is updated but gets no follow-up and is not counted. -/
theorem retry_success_skips_followup_witness :
    process_opp default_retry_config envC4b sf_acc0 ⟨"o1", 100, 0.85, "p1"⟩ =
      { sf_acc0 with
        updated_records := sf_acc0.updated_records ++ ["upd-o1"]
        log := sf_acc0.log ++ [CallEvent.updateCall "o1",
          CallEvent.sleep (default_retry_config.backoff_factor * 2 ^ 0),
          CallEvent.updateCall "o1"] } ∧
    (process_opp default_retry_config envC4b sf_acc0 ⟨"o1", 100, 0.85, "p1"⟩).high_priority_count =
      sf_acc0.high_priority_count ∧
    (process_opp default_retry_config envC4b sf_acc0 ⟨"o1", 100, 0.85, "p1"⟩).total_pipeline_value =
      sf_acc0.total_pipeline_value ∧
    (process_opp default_retry_config envC4b sf_acc0 ⟨"o1", 100, 0.85, "p1"⟩).created_tasks =
      sf_acc0.created_tasks ∧
    (process_opp default_retry_config envC4b sf_acc0 ⟨"o1", 100, 0.85, "p1"⟩).error_records =
      sf_acc0.error_records ∧
    (process_opp default_retry_config envC4b sf_acc0 ⟨"o1", 100, 0.85, "p1"⟩).log.filter
      is_task_call = sf_acc0.log.filter is_task_call ∧
    (∀ env' : Env, ∀ tb : String, env'.updateResp "o1" 0 = .ok "upd-o1" →
      env'.taskResp "o1" = .ok tb →
      (0.8 : ℚ) < (0.85 : ℚ) →
      process_opp default_retry_config env' sf_acc0 ⟨"o1", 100, 0.85, "p1"⟩ =
        { high_priority_count := sf_acc0.high_priority_count + 1
          total_pipeline_value := sf_acc0.total_pipeline_value + 100
          error_records := sf_acc0.error_records
          updated_records := sf_acc0.updated_records ++ ["upd-o1"]
          created_tasks := sf_acc0.created_tasks ++ [tb]
          log := sf_acc0.log ++ [CallEvent.updateCall "o1", CallEvent.taskCall "o1"] }) := by
  have h := retry_success_skips_followup default_retry_config envC4b sf_acc0
    ⟨"o1", 100, 0.85, "p1"⟩ 503 "upd-o1" (by decide) (by decide) rfl rfl (by decide)
  obtain ⟨h1, h2, h3, h4, h5, h6, h7⟩ := h
  exact ⟨h1, h2, h3, h4, h5, h6, fun env' tb hu ht _ => h7 env' tb hu ht (by norm_num)⟩

/- ### Scoring bounds and product selection -/

/-- Rounding to two decimals preserves the clamp interval. -/
theorem round2_bounds_aux (x : ℚ) (h1 : (0.1 : ℚ) ≤ x) (h2 : x ≤ (0.9 : ℚ)) :
    (0.1 : ℚ) ≤ round2 x ∧ round2 x ≤ 0.9 := by
  unfold round2
  have hfl : (10 : ℤ) ≤ ⌊100 * x + 1 / 2⌋ := by
    apply Int.le_floor.mpr
    push_cast
    linarith
  have hfu : ⌊100 * x + 1 / 2⌋ ≤ 90 := by
    have hle : ((⌊100 * x + 1 / 2⌋ : ℤ) : ℚ) ≤ 100 * x + 1 / 2 := Int.floor_le _
    have h91 : ((⌊100 * x + 1 / 2⌋ : ℤ) : ℚ) < 91 := by linarith
    have h91' : ⌊100 * x + 1 / 2⌋ < (91 : ℤ) := by exact_mod_cast h91
    omega
  constructor
  · have hc : ((10 : ℤ) : ℚ) ≤ ((⌊100 * x + 1 / 2⌋ : ℤ) : ℚ) := by exact_mod_cast hfl
    push_cast at hc
    linarith
  · have hc : ((⌊100 * x + 1 / 2⌋ : ℤ) : ℚ) ≤ ((90 : ℤ) : ℚ) := by exact_mod_cast hfu
    push_cast at hc
    linarith

/-- C5: the mock scorer's win probability always lands in [0.1, 0.9];
the amount contribution is clamped to [0, 0.3] and never increases with
the amount; and the stored probability is exactly the clamp of
base 0.5 + amount factor + fixed industry bonus + the random draw
(rounded to two decimals). -/
theorem score_bounds_spec (opp : Opportunity) (r : ℚ)
    (hr1 : -(0.1 : ℚ) ≤ r) (hr2 : r ≤ (0.1 : ℚ)) :
    ((0.1 : ℚ) ≤ (mock_score_opportunity opp r).winProbability ∧
      (mock_score_opportunity opp r).winProbability ≤ 0.9) ∧
    ((0 : ℚ) ≤ amount_factor opp.amount ∧ amount_factor opp.amount ≤ 0.3) ∧
    (∀ a b : ℚ, a ≤ b → amount_factor b ≤ amount_factor a) ∧
    (mock_score_opportunity opp r).winProbability =
      round2 (max 0.1 (min 0.9
        (0.5 + amount_factor opp.amount + industry_bonus opp.industry + r))) := by
  refine ⟨?_, ⟨le_max_left 0 _, max_le (by norm_num) (min_le_left _ _)⟩, ?_, rfl⟩
  · have hlow : (0.1 : ℚ) ≤ max 0.1 (min 0.9
        (0.5 + amount_factor opp.amount + industry_bonus opp.industry + r)) :=
      le_max_left _ _
    have hhigh : max (0.1 : ℚ) (min 0.9
        (0.5 + amount_factor opp.amount + industry_bonus opp.industry + r)) ≤ 0.9 :=
      max_le (by norm_num) (min_le_left _ _)
    exact round2_bounds_aux _ hlow hhigh
  · intro a b hab
    unfold amount_factor
    exact max_le_max le_rfl (min_le_min le_rfl (by linarith))

/-- Instantiates C5 at the spec's concrete scenario opportunity with the
random draw fixed to 0. -/
theorem score_bounds_spec_witness :
    ((0.1 : ℚ) ≤ (mock_score_opportunity oppC5 0).winProbability ∧
      (mock_score_opportunity oppC5 0).winProbability ≤ 0.9) ∧
    ((0 : ℚ) ≤ amount_factor oppC5.amount ∧ amount_factor oppC5.amount ≤ 0.3) ∧
    (∀ a b : ℚ, a ≤ b → amount_factor b ≤ amount_factor a) ∧
    (mock_score_opportunity oppC5 0).winProbability =
      round2 (max 0.1 (min 0.9
        (0.5 + amount_factor oppC5.amount + industry_bonus oppC5.industry + 0))) :=
  score_bounds_spec oppC5 0 (by norm_num) (by norm_num)

/-- C6: next-best-product selection is a pure function of the industry
and the probability band: equal bands give equal products; the product is
the band-indexed entry of the industry's three-product list; the band is
>0.7 / >0.4 / otherwise; and the lists are the fixed Technology,
Healthcare and Finance tables with a default for every other industry. -/
theorem product_band_spec (industry : String) (p q : ℚ) :
    (prob_band p = prob_band q →
      next_best_product industry p = next_best_product industry q) ∧
    next_best_product industry p = (products_for industry).getD (prob_band p) "" ∧
    ((0.7 : ℚ) < p → next_best_product industry p = (products_for industry).getD 0 "") ∧
    (¬ (0.7 : ℚ) < p → (0.4 : ℚ) < p →
      next_best_product industry p = (products_for industry).getD 1 "") ∧
    (¬ (0.7 : ℚ) < p → ¬ (0.4 : ℚ) < p →
      next_best_product industry p = (products_for industry).getD 2 "") ∧
    products_for "Technology" = ["Cloud Security", "API Manager", "Data Warehouse"] ∧
    products_for "Healthcare" = ["Patient Portal", "Analytics Platform", "Compliance Suite"] ∧
    products_for "Finance" = ["Trading Platform", "Risk Assessment", "Fraud Detection"] ∧
    (industry ≠ "Technology" → industry ≠ "Healthcare" → industry ≠ "Finance" →
      products_for industry = ["CRM Enterprise", "Analytics Suite", "Support Package"]) := by
  have key : ∀ x : ℚ,
      next_best_product industry x = (products_for industry).getD (prob_band x) "" := by
    intro x
    unfold next_best_product prob_band
    split_ifs <;> rfl
  refine ⟨?_, key p, ?_, ?_, ?_, rfl, rfl, rfl, ?_⟩
  · intro hpq
    rw [key p, key q, hpq]
  · intro h
    rw [key p]
    unfold prob_band
    rw [if_pos h]
  · intro h1 h2
    rw [key p]
    unfold prob_band
    rw [if_neg h1, if_pos h2]
  · intro h1 h2
    rw [key p]
    unfold prob_band
    rw [if_neg h1, if_neg h2]
  · intro h1 h2 h3
    simp [products_for, h1, h2, h3]

/-- Instantiates C6: 0.5 and 0.6 share a band and thus a product, and a
0.75 probability selects the first Technology product. -/
theorem product_band_spec_witness :
    next_best_product "Technology" 0.5 = next_best_product "Technology" 0.6 ∧
    next_best_product "Technology" 0.75 = (products_for "Technology").getD 0 "" :=
  ⟨(product_band_spec "Technology" 0.5 0.6).1 (by norm_num [prob_band]),
   (product_band_spec "Technology" 0.75 0.75).2.2.1 (by norm_num)⟩

/- ### Dispatcher bound and routing default -/

/-- C7 (amended): the dispatcher is a straight-line chain — for any
handler functions whatsoever it invokes at most 4 handlers and always
returns; there is no hop-limit error in the code (see the accompanying
counterexample: an always-redirecting handler yields a normal final
state whose `next` is still non-terminal). -/
theorem dispatcher_hop_bound (h : Handlers) (inp : String)
    (ctx : List (String × String)) :
    (process_with_agents h inp ctx).1.length ≤ 4 := by
  unfold process_with_agents
  dsimp only
  repeat' split
  all_goals simp

/-- C7 counterexample: with every handler replaced by a stub that always
redirects to the non-terminal `data_retriever` capability, the
dispatcher invokes three handlers and returns a normal (non-error) final
result whose `next` is still `data_retriever` — no fatal hop-limit
routing error is raised. -/
theorem dispatcher_no_hop_error :
    (process_with_agents stub_handlers "loop forever" []).1 =
      ["coordinator_agent", "data_retriever_agent", "data_retriever_agent"] ∧
    (process_with_agents stub_handlers "loop forever" []).2.isError = false ∧
    (process_with_agents stub_handlers "loop forever" []).2.finalNext =
      some "data_retriever" := by
  exact ⟨rfl, rfl, rfl⟩

/-- C8: a completion text containing none of the four capability names
routes to the fallback `route_optimizer`; the routing function always
produces one of the four known names (never an unset or unknown `next`);
the embedded coordinator's `next` is exactly that routing function; and
the dispatcher sends any state whose `next` is not one of the four names
to the route-optimizer handler. -/
theorem routing_default_spec (content : String) (h : Handlers) (inp : String)
    (ctx : List (String × String)) :
    (str_contains (str_lower content) "route_optimizer" = false →
     str_contains (str_lower content) "fleet_monitor" = false →
     str_contains (str_lower content) "data_retriever" = false →
     str_contains (str_lower content) "notification" = false →
     coordinator_route content = "route_optimizer") ∧
    coordinator_route content ∈
      ["route_optimizer", "fleet_monitor", "data_retriever", "notification"] ∧
    (∀ completion s, (coordinator_agent completion s).next = coordinator_route completion) ∧
    (∀ s1, h.coordinator_agent { input := inp, context := ctx, next := "" } = .ok s1 →
      s1.next ∉ (["route_optimizer", "fleet_monitor", "data_retriever", "notification"] :
        List String) →
      (process_with_agents h inp ctx).1.get? 1 = some "route_optimizer_agent") := by
  refine ⟨?_, ?_, fun _ _ => rfl, ?_⟩
  · intro h1 h2 h3 h4
    simp [coordinator_route, h1, h2, h3, h4]
  · simp only [coordinator_route]
    split_ifs <;> simp
  · intro s1 hs1 hmem
    simp only [List.mem_cons, List.not_mem_nil, or_false, not_or] at hmem
    obtain ⟨m1, m2, m3, m4⟩ := hmem
    unfold process_with_agents
    simp only [hs1]
    rw [if_neg m1, if_neg m2, if_neg m3, if_neg m4]
    rcases hro : h.route_optimizer_agent s1 with e | s2
    · rfl
    · dsimp only
      repeat' split
      all_goals rfl

/-- Instantiates C8: a keyword-free completion routes to the fallback,
and a coordinator reporting an unknown capability still sends the
request to the route-optimizer handler. -/
theorem routing_default_spec_witness :
    coordinator_route "hello there" = "route_optimizer" ∧
    (process_with_agents unknown_next_handlers "check status" []).1.get? 1 =
      some "route_optimizer_agent" :=
  ⟨(routing_default_spec "hello there" stub_handlers "x" []).1
     (by decide) (by decide) (by decide) (by decide),
   (routing_default_spec "hello there" unknown_next_handlers "check status" []).2.2.2
     { input := "check status", context := [], next := "warehouse_agent" } rfl (by decide)⟩

/- ### Shape of the run result -/

/-- C9 (amended): a successful run returns the dictionary with keys
`status`, `opportunities`, `tasks`, `summary`, `errors`, whose `summary`
holds exactly `runDate`, `highPriorityCount` and `totalPipelineValue` —
no average win probability; a failed run returns `status`/`message`. -/
theorem run_result_shape (cfg : RetryConfig) (env : Env) (today : String) :
    ((run_workflow cfg env today).2.statusStr = "success" →
      jkeys (run_workflow_json cfg env today) =
        ["status", "opportunities", "tasks", "summary", "errors"] ∧
      jkeys (summary_fields (run_workflow_json cfg env today)) =
        ["runDate", "highPriorityCount", "totalPipelineValue"]) ∧
    ((run_workflow cfg env today).2.statusStr = "error" →
      jkeys (run_workflow_json cfg env today) = ["status", "message"]) := by
  rcases hr : (run_workflow cfg env today).2 with ⟨opps, tasks, d, hpc, tpv, errs⟩ | m
  · refine ⟨fun _ => ?_, fun hst => absurd hst (by simp [RunResult.statusStr])⟩
    constructor <;> simp [run_workflow_json, hr, jkeys, summary_fields, jget]
  · refine ⟨fun hst => absurd hst (by simp [RunResult.statusStr]), fun _ => ?_⟩
    simp [run_workflow_json, hr, jkeys]

/-- Instantiates the amended C9 at a concrete successful run. -/
theorem run_result_shape_witness :
    jkeys (run_workflow_json default_retry_config envC2 "2025-06-01") =
      ["status", "opportunities", "tasks", "summary", "errors"] ∧
    jkeys (summary_fields (run_workflow_json default_retry_config envC2 "2025-06-01")) =
      ["runDate", "highPriorityCount", "totalPipelineValue"] :=
  (run_result_shape default_retry_config envC2 "2025-06-01").1 rfl

/-- C9 counterexample: at a concrete successful run, the summary object
holds exactly `runDate`, `highPriorityCount` and `totalPipelineValue` —
there is no average-win-probability metric anywhere in the result (that
field exists only in the separate Streamlit demo workflow of
`integrated_app.py`, not in `OrchestratorAgent.run_workflow`). -/
theorem run_result_no_average :
    (run_workflow default_retry_config envC2 "2025-06-01").2.statusStr = "success" ∧
    jkeys (summary_fields (run_workflow_json default_retry_config envC2 "2025-06-01")) =
      ["runDate", "highPriorityCount", "totalPipelineValue"] ∧
    "avgWinProbability" ∉
      jkeys (summary_fields (run_workflow_json default_retry_config envC2 "2025-06-01")) ∧
    "averageWinProbability" ∉
      jkeys (summary_fields (run_workflow_json default_retry_config envC2 "2025-06-01")) ∧
    "avgWinProbability" ∉ jkeys (run_workflow_json default_retry_config envC2 "2025-06-01") := by
  refine ⟨rfl, rfl, ?_, ?_, ?_⟩ <;> decide
